import Mathlib

/-!
Verification development for the eventBus repository (package eventbus,
src/emitter.go).  The Go code is shallowly embedded: the registry
(a sync.Map used key-to-value) becomes an association list, the unbuffered
sender channel consumed by Loop becomes a pending list, and the executions
performed by the goroutines that Loop spawns are recorded in a log.
Argument values are opaque to the code (interface\x7b\x7d), so the whole
development is polymorphic in the argument type Arg; a callable is modelled
by its reflected arity (f.Type().NumIn()) together with a behaviour
predicate telling, per argument list, whether its body raises a runtime
fault.  All executions are sequentialised: one step of the background Loop
(receiving one message and running the spawned call to completion) is the
consume operation.

Aliasing note: in Go the registry and the sender channel share one *event
pointer, so a counter increment performed by an asynchronously dispatched
call is visible through the registry afterwards.  The embedding stores a
value copy in the pending list; no statement below observes callTimes
through the registry after an asynchronous dispatch, so the copy is
indistinguishable from the pointer for every theorem in this file.
-/

namespace EventBusSpec

/-- Error values of the package, one constructor per errors.New variable
in src/emitter.go. -/
inductive Err where
  | ErrArgsNotMatch
  | ErrEventType
  | ErrExists
  | ErrNotCallable
  | ErrNotFound
  | ErrRuntimePanic
deriving DecidableEq, Repr

/-- Wrap an integer to the int32 range, as atomic.AddInt32 does on
overflow. -/
def wrap32 (x : Int) : Int :=
  (x + 2 ^ 31) % 2 ^ 32 - 2 ^ 31

/-- Behaviour of a Go function value as the emitter sees it through
reflect: its arity f.Type().NumIn(), and whether its body raises a runtime
fault when called on a given (arity-matching, well-typed) argument list. -/
structure Callable (Arg : Type) where
  numIn : Nat
  panics : List Arg → Bool

/-- A value handed to On/Once (Go type interface\x7b\x7d): either a
function value or some value whose reflect Kind is not Func. -/
inductive RegValue (Arg : Type) where
  | func (c : Callable Arg)
  | nonFunc

/-- The event struct of src/emitter.go: key, once flag, the registered
value, the arity captured at registration, and the int32 call counter. -/
structure event (Arg : Type) where
  key : String
  once : Bool
  call : RegValue Arg
  argsNums : Nat
  callTimes : Int

/-- A runtime fault raised by the code of event.Call itself before its
deferred recover is installed; such a fault unwinds out of Call. -/
inductive PanicKind where
  | indexOutOfRange
  | numInOnNonFunc
deriving DecidableEq, Repr

/-- Outcome of one execution of event.Call: the updated event (the counter
is always incremented first), the returned error value (nil is none),
the executions of the registered callable body that took place (key and
argument list), and a fault of Call itself that was not recovered and so
unwound to the caller. -/
structure CallResult (Arg : Type) where
  ev : event Arg
  ret : Option Err
  executed : List (String × List Arg)
  propagated : Option PanicKind

/-- Embedding of event.Call from src/emitter.go.  The counter is
incremented unconditionally before anything else.  The deferred recover is
installed only after the argument-filling loop, so a fault raised while
building the argument vector (index out of range when more arguments than
NumIn are supplied, or reflect refusing NumIn on a non-func value) is not
recovered and unwinds.  With fewer arguments than NumIn, f.Call rejects
the zero reflect.Values with a fault that the defer does recover, so Call
returns ErrRuntimePanic without the callable body having run.  With a
matching count the body runs; a fault it raises is recovered into
ErrRuntimePanic, otherwise Call returns nil.  (Arguments are modelled as
well-typed: a type mismatch would surface as one more recovered fault of
f.Call, indistinguishable here from a body fault.) -/
def event.Call {Arg : Type} (e : event Arg) (args : List Arg) : CallResult Arg :=
  let e1 : event Arg := { e with callTimes := wrap32 (e.callTimes + 1) }
  match e.call with
  | RegValue.nonFunc => ⟨e1, none, [], some PanicKind.numInOnNonFunc⟩
  | RegValue.func c =>
    if args.length > c.numIn then
      ⟨e1, none, [], some PanicKind.indexOutOfRange⟩
    else if args.length < c.numIn then
      ⟨e1, some Err.ErrRuntimePanic, [], none⟩
    else
      ⟨e1, if c.panics args then some Err.ErrRuntimePanic else none,
        [(e.key, args)], none⟩

/-- A message on the sender channel: the event (a shared pointer in Go)
and the argument list of the Send that enqueued it. -/
structure sender (Arg : Type) where
  e : event Arg
  args : List Arg

/-- Embedding of sender.Call from src/emitter.go. -/
def sender.Call {Arg : Type} (s : sender Arg) : CallResult Arg :=
  s.e.Call s.args

/-- A value stored in the events map.  The API of the package only ever
stores event values; the other constructor stands for a stored value that
is not a handler entry, which the type-confusion branch of Send guards
against. -/
inductive Stored (Arg : Type) where
  | ev (e : event Arg)
  | other

/-- Point lookup in the association list modelling sync.Map.Load. -/
def mapLookup {Arg : Type} (m : List (String × Stored Arg)) (k : String) :
    Option (Stored Arg) :=
  (m.find? (fun kv => kv.1 == k)).map (fun kv => kv.2)

/-- Deletion modelling sync.Map.Delete. -/
def mapDelete {Arg : Type} (m : List (String × Stored Arg)) (k : String) :
    List (String × Stored Arg) :=
  m.filter (fun kv => !(kv.1 == k))

/-- The EventBus struct: the events map, the messages handed to the
sender channel but not yet executed, and the record of callable-body
executions performed by the spawned dispatch goroutines. -/
structure EventBus (Arg : Type) where
  events : List (String × Stored Arg)
  pending : List (sender Arg)
  log : List (String × List Arg)

/-- Embedding of the unexported method on from src/emitter.go: reject a
value whose Kind is not Func with ErrNotCallable, capture NumIn into
argsNums, then LoadOrStore: keep the existing entry and fail with
ErrExists on collision, otherwise store the new entry. -/
def EventBus.on {Arg : Type} (p : EventBus Arg) (e : event Arg) :
    EventBus Arg × Option Err :=
  match e.call with
  | RegValue.nonFunc => (p, some Err.ErrNotCallable)
  | RegValue.func c =>
    let e2 : event Arg := { e with argsNums := c.numIn }
    match mapLookup p.events e2.key with
    | some _ => (p, some Err.ErrExists)
    | none => ({ p with events := (e2.key, Stored.ev e2) :: p.events }, none)

/-- Embedding of EventBus.On: register a repeatable handler. -/
def EventBus.On {Arg : Type} (p : EventBus Arg) (eventKey : String)
    (call : RegValue Arg) : EventBus Arg × Option Err :=
  p.on ⟨eventKey, false, call, 0, 0⟩

/-- Embedding of EventBus.Once: register a one-shot handler. -/
def EventBus.Once {Arg : Type} (p : EventBus Arg) (eventKey : String)
    (call : RegValue Arg) : EventBus Arg × Option Err :=
  p.on ⟨eventKey, true, call, 0, 0⟩

/-- Embedding of EventBus.Remove: unconditional deletion. -/
def EventBus.Remove {Arg : Type} (p : EventBus Arg) (eventkey : String) :
    EventBus Arg :=
  { p with events := mapDelete p.events eventkey }

/-- Embedding of EventBus.Send from src/emitter.go: lookup (ErrNotFound if
absent), the type-confusion guard (ErrEventType), the arity pre-check
(ErrArgsNotMatch), removal of a once entry, and the handover of the
message to the sender channel; Send returns nil at that point, before any
execution. -/
def EventBus.Send {Arg : Type} (p : EventBus Arg) (eventKey : String)
    (args : List Arg) : EventBus Arg × Option Err :=
  match mapLookup p.events eventKey with
  | none => (p, some Err.ErrNotFound)
  | some Stored.other => (p, some Err.ErrEventType)
  | some (Stored.ev e) =>
    if args.length ≠ e.argsNums then (p, some Err.ErrArgsNotMatch)
    else
      let p1 := if e.once then p.Remove eventKey else p
      ({ p1 with pending := p1.pending ++ [⟨e, args⟩] }, none)

/-- One step of the background Loop of src/emitter.go: receive the oldest
message from the sender channel and run the spawned s.Call() to
completion, recording the callable-body executions it performed.  The
error value of s.Call() is discarded, exactly as go s.Call() discards
it. -/
def EventBus.consume {Arg : Type} (p : EventBus Arg) : EventBus Arg :=
  match p.pending with
  | [] => p
  | s :: rest =>
    { p with pending := rest, log := p.log ++ s.Call.executed }

/-- Embedding of New from src/emitter.go: empty map, empty channel,
nothing executed yet. -/
def New (Arg : Type) : EventBus Arg :=
  ⟨[], [], []⟩

/-- One public operation of the Emitter interface, plus one step of the
background Loop, for describing reachable states. -/
inductive Op (Arg : Type) where
  | on (key : String) (call : RegValue Arg)
  | once (key : String) (call : RegValue Arg)
  | send (key : String) (args : List Arg)
  | remove (key : String)
  | consume

/-- Effect of one operation on the bus state (returned errors are not part
of the state). -/
def EventBus.step {Arg : Type} (p : EventBus Arg) : Op Arg → EventBus Arg
  | Op.on k c => (p.On k c).1
  | Op.once k c => (p.Once k c).1
  | Op.send k args => (p.Send k args).1
  | Op.remove k => p.Remove k
  | Op.consume => p.consume

/-- State reached from a fresh bus by a sequence of operations. -/
def EventBus.run {Arg : Type} (p : EventBus Arg) (ops : List (Op Arg)) :
    EventBus Arg :=
  ops.foldl EventBus.step p

/-- Every value stored in the events map is a handler entry. -/
def StoredOk {Arg : Type} (p : EventBus Arg) : Prop :=
  ∀ kv ∈ p.events, ∃ e, kv.2 = Stored.ev e

/-- Modelled from the spec: the synchronous dispatch mode of section 5,
whose implementation is not under src (src/emitter.go ships only the
queued mode, while src/emitter_test.go tests a Send that returns the
actual execution outcome).  Lookup, the type-confusion guard, the arity
pre-check and the removal of a once entry follow Send of src/emitter.go
verbatim; then, instead of enqueueing, the handler is invoked inline
through event.Call and Send returns the actual outcome (nil or
ErrRuntimePanic), as the spec requires of the synchronous mode.  For a
repeatable entry the counter increment performed by the call is visible
through the registry afterwards (the shared pointer in Go), modelled by
writing the updated event back. -/
def EventBus.SendSync {Arg : Type} (p : EventBus Arg) (eventKey : String)
    (args : List Arg) : EventBus Arg × Option Err :=
  match mapLookup p.events eventKey with
  | none => (p, some Err.ErrNotFound)
  | some Stored.other => (p, some Err.ErrEventType)
  | some (Stored.ev e) =>
    if args.length ≠ e.argsNums then (p, some Err.ErrArgsNotMatch)
    else
      let r := e.Call args
      let writeBack := p.events.map
        (fun kv => if kv.1 == eventKey then (kv.1, Stored.ev r.ev) else kv)
      let p1 :=
        if e.once then p.Remove eventKey
        else { p with events := writeBack }
      ({ p1 with log := p1.log ++ r.executed }, r.ret)

/-! Helper lemmas about the association-list registry. -/

theorem mapLookup_cons_self {Arg : Type} (m : List (String × Stored Arg))
    (k : String) (v : Stored Arg) : mapLookup ((k, v) :: m) k = some v := by
  simp [mapLookup, List.find?_cons_of_pos]

theorem mapLookup_mapDelete_self {Arg : Type} (m : List (String × Stored Arg))
    (k : String) : mapLookup (mapDelete m k) k = none := by
  have hfind : (mapDelete m k).find? (fun kv => kv.1 == k) = none := by
    rw [List.find?_eq_none]
    intro kv hmem
    have hp := List.of_mem_filter hmem
    simpa using hp
  simp [mapLookup, hfind]

theorem storedOk_no_other {Arg : Type} (p : EventBus Arg) (k : String)
    (hok : StoredOk p) (h : mapLookup p.events k = some Stored.other) :
    False := by
  unfold mapLookup at h
  rw [Option.map_eq_some'] at h
  obtain ⟨kv, hfind, hv⟩ := h
  obtain ⟨e, he⟩ := hok kv (List.mem_of_find?_eq_some hfind)
  rw [hv] at he
  exact Stored.noConfusion he

/-- C4: a Send whose argument count differs from the arity recorded in the
entry fails with ErrArgsNotMatch and changes nothing: the bus state is
returned unchanged (so no enqueue, no execution, no counter mutation) and
the entry, once flag and arity included, is still in the registry. -/
theorem c4_args_mismatch_changes_nothing {Arg : Type} (s : EventBus Arg)
    (key : String) (e : event Arg) (args : List Arg)
    (h : mapLookup s.events key = some (Stored.ev e))
    (hlen : args.length ≠ e.argsNums) :
    s.Send key args = (s, some Err.ErrArgsNotMatch) ∧
    mapLookup (s.Send key args).1.events key = some (Stored.ev e) := by
  refine ⟨?_, ?_⟩ <;> simp [EventBus.Send, h, hlen]

/-- C4 witness: a two-argument handler triggered with one argument. -/
theorem c4_witness :
    (((New Nat).On "add" (RegValue.func ⟨2, fun _ => false⟩)).1.Send "add" [7])
      = (((New Nat).On "add" (RegValue.func ⟨2, fun _ => false⟩)).1,
        some Err.ErrArgsNotMatch) ∧
    mapLookup (((New Nat).On "add" (RegValue.func ⟨2, fun _ => false⟩)).1.Send
      "add" [7]).1.events "add"
      = some (Stored.ev ⟨"add", false, RegValue.func ⟨2, fun _ => false⟩, 2, 0⟩) :=
  c4_args_mismatch_changes_nothing
    ((New Nat).On "add" (RegValue.func ⟨2, fun _ => false⟩)).1 "add"
    ⟨"add", false, RegValue.func ⟨2, fun _ => false⟩, 2, 0⟩ [7] rfl (by decide)

/-- C6: with a key not yet registered, a first registration (either
entry point, any callable) succeeds; a second registration of the same
key fails with ErrExists and returns the bus unchanged, so the first
callable, once flag and arity are still what the registry stores. -/
theorem c6_second_registration_rejected {Arg : Type} (s : EventBus Arg)
    (key : String) (o1 o2 : Bool) (c1 c2 : Callable Arg)
    (h : mapLookup s.events key = none) :
    (s.on ⟨key, o1, RegValue.func c1, 0, 0⟩).2 = none ∧
    ((s.on ⟨key, o1, RegValue.func c1, 0, 0⟩).1.on ⟨key, o2, RegValue.func c2, 0, 0⟩)
      = ((s.on ⟨key, o1, RegValue.func c1, 0, 0⟩).1, some Err.ErrExists) ∧
    mapLookup ((s.on ⟨key, o1, RegValue.func c1, 0, 0⟩).1.on
        ⟨key, o2, RegValue.func c2, 0, 0⟩).1.events key
      = some (Stored.ev ⟨key, o1, RegValue.func c1, c1.numIn, 0⟩) := by
  refine ⟨?_, ?_, ?_⟩ <;>
    simp [EventBus.on, h, mapLookup_cons_self]

/-- C6 witness: the key "add" registered twice on a fresh bus. -/
theorem c6_witness :
    (((New Nat).on ⟨"add", false, RegValue.func ⟨2, fun _ => false⟩, 0, 0⟩).2
      = none) ∧
    ((((New Nat).on ⟨"add", false, RegValue.func ⟨2, fun _ => false⟩, 0, 0⟩).1.on
        ⟨"add", false, RegValue.func ⟨3, fun _ => false⟩, 0, 0⟩)
      = ((((New Nat)).on ⟨"add", false, RegValue.func ⟨2, fun _ => false⟩, 0, 0⟩).1,
        some Err.ErrExists)) ∧
    mapLookup ((((New Nat)).on ⟨"add", false, RegValue.func ⟨2, fun _ => false⟩,
        0, 0⟩).1.on ⟨"add", false, RegValue.func ⟨3, fun _ => false⟩, 0, 0⟩).1.events
        "add"
      = some (Stored.ev ⟨"add", false, RegValue.func ⟨2, fun _ => false⟩, 2, 0⟩) :=
  c6_second_registration_rejected (New Nat) "add" false false
    ⟨2, fun _ => false⟩ ⟨3, fun _ => false⟩ rfl

/-- C9: the Kind check runs before the LoadOrStore, so registering a
non-function value under a key that already has an entry fails with
ErrNotCallable, not ErrExists, through both On and Once, and the bus, the
existing entry included, is unchanged. -/
theorem c9_kind_check_first {Arg : Type} (s : EventBus Arg) (key : String)
    (v : Stored Arg) (h : mapLookup s.events key = some v) :
    s.On key RegValue.nonFunc = (s, some Err.ErrNotCallable) ∧
    s.Once key RegValue.nonFunc = (s, some Err.ErrNotCallable) ∧
    mapLookup (s.On key RegValue.nonFunc).1.events key = some v := by
  refine ⟨?_, ?_, ?_⟩ <;> simp [EventBus.On, EventBus.Once, EventBus.on, h]

/-- C9 witness: a non-function registered over a live "add" entry. -/
theorem c9_witness :
    (((New Nat).On "add" (RegValue.func ⟨2, fun _ => false⟩)).1.On "add"
        RegValue.nonFunc
      = (((New Nat).On "add" (RegValue.func ⟨2, fun _ => false⟩)).1,
        some Err.ErrNotCallable)) ∧
    (((New Nat).On "add" (RegValue.func ⟨2, fun _ => false⟩)).1.Once "add"
        RegValue.nonFunc
      = (((New Nat).On "add" (RegValue.func ⟨2, fun _ => false⟩)).1,
        some Err.ErrNotCallable)) ∧
    mapLookup (((New Nat).On "add" (RegValue.func ⟨2, fun _ => false⟩)).1.On
        "add" RegValue.nonFunc).1.events "add"
      = some (Stored.ev ⟨"add", false, RegValue.func ⟨2, fun _ => false⟩, 2, 0⟩) :=
  c9_kind_check_first ((New Nat).On "add" (RegValue.func ⟨2, fun _ => false⟩)).1
    "add" (Stored.ev ⟨"add", false, RegValue.func ⟨2, fun _ => false⟩, 2, 0⟩) rfl

/-- C10: no validation is applied to the key, so both registration entry
points accept the empty string when it is free, and the resulting entry is
triggered by a Send of the empty string exactly like any other entry: the
Send succeeds and hands the entry with the supplied arguments to the
sender channel. -/
theorem c10_empty_key_accepted {Arg : Type} (s : EventBus Arg)
    (c : Callable Arg) (args : List Arg)
    (h : mapLookup s.events "" = none)
    (hlen : args.length = c.numIn) :
    (s.On "" (RegValue.func c)).2 = none ∧
    (s.Once "" (RegValue.func c)).2 = none ∧
    ((s.On "" (RegValue.func c)).1.Send "" args).2 = none ∧
    ((s.On "" (RegValue.func c)).1.Send "" args).1.pending
      = s.pending ++ [⟨⟨"", false, RegValue.func c, c.numIn, 0⟩, args⟩] := by
  refine ⟨?_, ?_, ?_, ?_⟩ <;>
    simp [EventBus.On, EventBus.Once, EventBus.on, EventBus.Send, h,
      mapLookup_cons_self, hlen]

/-- C10 witness: a one-argument handler under the empty key on a fresh
bus. -/
theorem c10_witness :
    (((New Nat).On "" (RegValue.func ⟨1, fun _ => false⟩)).2 = none) ∧
    (((New Nat).Once "" (RegValue.func ⟨1, fun _ => false⟩)).2 = none) ∧
    ((((New Nat).On "" (RegValue.func ⟨1, fun _ => false⟩)).1.Send "" [5]).2
      = none) ∧
    ((((New Nat).On "" (RegValue.func ⟨1, fun _ => false⟩)).1.Send "" [5]).1.pending
      = (New Nat).pending
        ++ [⟨⟨"", false, RegValue.func ⟨1, fun _ => false⟩, 1, 0⟩, [5]⟩]) :=
  c10_empty_key_accepted (New Nat) ⟨1, fun _ => false⟩ [5] rfl (by decide)

/-- C5: on a bus where the key is free, registering through Once and then
sending with an arity-matching argument list succeeds (Send returns nil),
and a second Send of the same key, whatever its arguments, fails with
ErrNotFound, because the first Send deleted the once entry from the
registry before handing the message over. -/
theorem c5_once_second_send_notfound {Arg : Type} (s : EventBus Arg)
    (key : String) (c : Callable Arg) (args args2 : List Arg)
    (h : mapLookup s.events key = none)
    (hlen : args.length = c.numIn) :
    (s.Once key (RegValue.func c)).2 = none ∧
    ((s.Once key (RegValue.func c)).1.Send key args).2 = none ∧
    (((s.Once key (RegValue.func c)).1.Send key args).1.Send key args2).2
      = some Err.ErrNotFound := by
  refine ⟨?_, ?_, ?_⟩ <;>
    simp [EventBus.Once, EventBus.on, EventBus.Send, EventBus.Remove, h,
      mapLookup_cons_self, hlen, mapLookup_mapDelete_self]

/-- C5 witness: a zero-argument once handler under the key "greet". -/
theorem c5_witness :
    (((New Nat).Once "greet" (RegValue.func ⟨0, fun _ => false⟩)).2 = none) ∧
    ((((New Nat).Once "greet" (RegValue.func ⟨0, fun _ => false⟩)).1.Send
      "greet" []).2 = none) ∧
    (((((New Nat).Once "greet" (RegValue.func ⟨0, fun _ => false⟩)).1.Send
      "greet" []).1.Send "greet" []).2 = some Err.ErrNotFound) :=
  c5_once_second_send_notfound (New Nat) "greet" ⟨0, fun _ => false⟩ [] [] rfl
    (by decide)

/-- C7: for an entry holding a function value called with an
arity-matching argument list, event.Call runs the callable body exactly
once, never lets a fault unwind to its caller, returns ErrRuntimePanic
when the body raises a fault, and returns nil when it does not. -/
theorem c7_call_never_unwinds {Arg : Type} (e : event Arg) (c : Callable Arg)
    (args : List Arg) (hc : e.call = RegValue.func c)
    (hlen : args.length = c.numIn) :
    (e.Call args).executed = [(e.key, args)] ∧
    (e.Call args).propagated = none ∧
    (c.panics args = true → (e.Call args).ret = some Err.ErrRuntimePanic) ∧
    (c.panics args = false → (e.Call args).ret = none) := by
  refine ⟨?_, ?_, fun hp => ?_, fun hp => ?_⟩ <;>
    simp [event.Call, hc, hlen] <;> exact hp

/-- C7 witness: a zero-argument entry whose body always raises a fault,
and the same entry with a quiet body, via two instantiations packaged in
one closed statement. -/
theorem c7_witness :
    (((⟨"boom", true, RegValue.func ⟨0, fun _ => true⟩, 0, 0⟩ :
        event Nat).Call []).executed = [("boom", [])] ∧
      ((⟨"boom", true, RegValue.func ⟨0, fun _ => true⟩, 0, 0⟩ :
        event Nat).Call []).propagated = none ∧
      ((fun _ : List Nat => true) [] = true →
        ((⟨"boom", true, RegValue.func ⟨0, fun _ => true⟩, 0, 0⟩ :
          event Nat).Call []).ret = some Err.ErrRuntimePanic) ∧
      ((fun _ : List Nat => true) [] = false →
        ((⟨"boom", true, RegValue.func ⟨0, fun _ => true⟩, 0, 0⟩ :
          event Nat).Call []).ret = none)) :=
  c7_call_never_unwinds (⟨"boom", true, RegValue.func ⟨0, fun _ => true⟩, 0, 0⟩ :
    event Nat) ⟨0, fun _ => true⟩ [] rfl (by decide)

/-- C3: in the queued mode, a Send of a live entry with a matching arity
returns nil as soon as the message is appended to the channel, with no
execution having taken place (the log is unchanged), and the only errors
any Send can return on a well-formed registry are ErrNotFound and
ErrArgsNotMatch, so the outcome of the handler itself is never reflected
in the value Send returns. -/
theorem c3_send_enqueues_before_execution {Arg : Type} (s s2 : EventBus Arg)
    (key key2 : String) (e : event Arg) (args args2 : List Arg) (er : Err)
    (h : mapLookup s.events key = some (Stored.ev e))
    (hlen : args.length = e.argsNums)
    (hok : StoredOk s2)
    (herr : (s2.Send key2 args2).2 = some er) :
    (s.Send key args).2 = none ∧
    (s.Send key args).1.pending = s.pending ++ [⟨e, args⟩] ∧
    (s.Send key args).1.log = s.log ∧
    (er = Err.ErrNotFound ∨ er = Err.ErrArgsNotMatch) := by
  refine ⟨?_, ?_, ?_, ?_⟩
  · simp [EventBus.Send, h, hlen]
  · by_cases ho : e.once <;>
      simp [EventBus.Send, h, hlen, EventBus.Remove, ho]
  · by_cases ho : e.once <;>
      simp [EventBus.Send, h, hlen, EventBus.Remove, ho]
  · cases hl : mapLookup s2.events key2 with
    | none =>
      simp [EventBus.Send, hl] at herr
      exact Or.inl herr.symm
    | some v =>
      cases v with
      | other => exact (storedOk_no_other s2 key2 hok hl).elim
      | ev e2 =>
        by_cases hl2 : args2.length ≠ e2.argsNums
        · simp [EventBus.Send, hl, hl2] at herr
          exact Or.inr herr.symm
        · simp [EventBus.Send, hl, hl2] at herr

/-- C3 witness: a live one-argument handler enqueued on a fresh bus, and
an ErrNotFound observed on another fresh bus. -/
theorem c3_witness :
    ((((New Nat).On "add" (RegValue.func ⟨1, fun _ => false⟩)).1.Send "add"
      [4]).2 = none) ∧
    ((((New Nat).On "add" (RegValue.func ⟨1, fun _ => false⟩)).1.Send "add"
      [4]).1.pending
      = ((New Nat).On "add" (RegValue.func ⟨1, fun _ => false⟩)).1.pending
        ++ [⟨⟨"add", false, RegValue.func ⟨1, fun _ => false⟩, 1, 0⟩, [4]⟩]) ∧
    ((((New Nat).On "add" (RegValue.func ⟨1, fun _ => false⟩)).1.Send "add"
      [4]).1.log
      = ((New Nat).On "add" (RegValue.func ⟨1, fun _ => false⟩)).1.log) ∧
    (Err.ErrNotFound = Err.ErrNotFound ∨ Err.ErrNotFound = Err.ErrArgsNotMatch) :=
  c3_send_enqueues_before_execution
    ((New Nat).On "add" (RegValue.func ⟨1, fun _ => false⟩)).1 (New Nat)
    "add" "nope" ⟨"add", false, RegValue.func ⟨1, fun _ => false⟩, 1, 0⟩
    [4] [] Err.ErrNotFound rfl (by decide)
    (by intro kv hmem; cases hmem) rfl

/-! Preservation of the typed-storage invariant under every operation. -/

theorem storedOk_new {Arg : Type} : StoredOk (New Arg) := by
  intro kv hmem
  cases hmem

theorem storedOk_remove {Arg : Type} (p : EventBus Arg) (k : String)
    (h : StoredOk p) : StoredOk (p.Remove k) := by
  intro kv hmem
  exact h kv (List.mem_of_mem_filter hmem)

theorem storedOk_on_preserved {Arg : Type} (p : EventBus Arg) (e : event Arg)
    (h : StoredOk p) : StoredOk (p.on e).1 := by
  cases hc : e.call with
  | nonFunc => simpa [EventBus.on, hc] using h
  | func c =>
    cases hl : mapLookup p.events e.key with
    | some v => simpa [EventBus.on, hc, hl] using h
    | none =>
      intro kv hmem
      simp only [EventBus.on, hc, hl] at hmem
      rcases List.mem_cons.mp hmem with hhead | htail
      · exact ⟨_, by rw [hhead]⟩
      · exact h kv htail

theorem storedOk_send_preserved {Arg : Type} (p : EventBus Arg) (k : String)
    (args : List Arg) (h : StoredOk p) : StoredOk (p.Send k args).1 := by
  cases hl : mapLookup p.events k with
  | none => simpa [EventBus.Send, hl] using h
  | some v =>
    cases v with
    | other => simpa [EventBus.Send, hl] using h
    | ev e =>
      by_cases hlen : args.length ≠ e.argsNums
      · simpa [EventBus.Send, hl, hlen] using h
      · by_cases ho : e.once
        · intro kv hmem
          simp only [EventBus.Send, hl, hlen, ho, if_true, if_false,
            ite_true, ite_false] at hmem
          exact storedOk_remove p k h kv (by simpa using hmem)
        · intro kv hmem
          simp only [EventBus.Send, hl, hlen, ho, if_true, if_false,
            ite_true, ite_false] at hmem
          exact h kv (by simpa using hmem)

theorem storedOk_consume {Arg : Type} (p : EventBus Arg)
    (h : StoredOk p) : StoredOk p.consume := by
  intro kv hmem
  unfold EventBus.consume at hmem
  cases hp : p.pending with
  | nil => rw [hp] at hmem; exact h kv hmem
  | cons s rest => rw [hp] at hmem; exact h kv hmem

theorem storedOk_step {Arg : Type} (p : EventBus Arg) (o : Op Arg)
    (h : StoredOk p) : StoredOk (p.step o) := by
  match o with
  | Op.on k c => exact storedOk_on_preserved p _ h
  | Op.once k c => exact storedOk_on_preserved p _ h
  | Op.send k args => exact storedOk_send_preserved p k args h
  | Op.remove k => exact storedOk_remove p k h
  | Op.consume => exact storedOk_consume p h

theorem storedOk_run {Arg : Type} (ops : List (Op Arg)) (p : EventBus Arg)
    (h : StoredOk p) : StoredOk (p.run ops) := by
  induction ops generalizing p with
  | nil => exact h
  | cons o rest ih => exact ih (p.step o) (storedOk_step p o h)

/-- C8: every value the registry holds in any state reachable from a
fresh bus by On, Once, Send, Remove and Loop steps is a handler entry, so
the type-confusion branch of Send never fires on such states (Send never
returns ErrEventType there); and on a hypothetical state that does hold a
non-entry value, Send fails closed, returning ErrEventType with the bus
unchanged. -/
theorem c8_typed_storage_invariant {Arg : Type} (ops : List (Op Arg))
    (sg sb : EventBus Arg) (kg kb : String) (ag ab : List Arg)
    (hg : StoredOk sg)
    (hb : mapLookup sb.events kb = some Stored.other) :
    StoredOk ((New Arg).run ops) ∧
    (sg.Send kg ag).2 ≠ some Err.ErrEventType ∧
    sb.Send kb ab = (sb, some Err.ErrEventType) := by
  refine ⟨storedOk_run ops (New Arg) storedOk_new, ?_, ?_⟩
  · cases hl : mapLookup sg.events kg with
    | none => simp [EventBus.Send, hl]
    | some v =>
      cases v with
      | other => exact (storedOk_no_other sg kg hg hl).elim
      | ev e =>
        by_cases hlen : ag.length ≠ e.argsNums <;>
          simp [EventBus.Send, hl, hlen]
  · simp [EventBus.Send, hb]

/-- C8 witness: a short operation sequence on a fresh bus, a Send on a
fresh bus, and the fail-closed answer on a hand-built state storing a
non-entry value. -/
theorem c8_witness :
    StoredOk ((New Nat).run
      [Op.on "add" (RegValue.func ⟨1, fun _ => false⟩),
        Op.send "add" [3], Op.consume]) ∧
    ((New Nat).Send "nope" []).2 ≠ some Err.ErrEventType ∧
    (⟨[("bad", Stored.other)], [], []⟩ : EventBus Nat).Send "bad" []
      = (⟨[("bad", Stored.other)], [], []⟩, some Err.ErrEventType) :=
  c8_typed_storage_invariant
    [Op.on "add" (RegValue.func ⟨1, fun _ => false⟩),
      Op.send "add" [3], Op.consume]
    (New Nat) (⟨[("bad", Stored.other)], [], []⟩ : EventBus Nat)
    "nope" "bad" [] [] storedOk_new rfl

/-- C1 counterexample: a zero-argument once entry invoked twice through
event.Call.  The second invocation raises the counter to 2 and still runs
the callable body, returning nil rather than ErrNotFound, refuting the
claim that an invocation whose incremented counter exceeds 1 skips the
callable and fails with ErrNotFound. -/
theorem c1_counterexample :
    (((⟨"once", true, RegValue.func ⟨0, fun _ => false⟩, 0, 0⟩ :
        event Nat).Call []).ev.Call []).ev.callTimes = 2 ∧
    (((⟨"once", true, RegValue.func ⟨0, fun _ => false⟩, 0, 0⟩ :
        event Nat).Call []).ev.Call []).executed = [("once", [])] ∧
    (((⟨"once", true, RegValue.func ⟨0, fun _ => false⟩, 0, 0⟩ :
        event Nat).Call []).ev.Call []).ret ≠ some Err.ErrNotFound := by
  refine ⟨by decide, by decide, by decide⟩

/-- C1 (amended): an invocation of a once entry atomically increments the
counter and then always runs the callable, whatever the incremented value,
and event.Call itself never fails with ErrNotFound; the at-most-once
behaviour is enforced by Send instead, which deletes a once entry from the
registry before handing the message to the channel, so any later Send of
that key fails with ErrNotFound at lookup. -/
theorem c1_amended_removal_enforces_once {Arg : Type} (e : event Arg)
    (c : Callable Arg) (args : List Arg) (s : EventBus Arg) (key : String)
    (args2 args3 : List Arg)
    (hc : e.call = RegValue.func c) (honce : e.once = true)
    (hlen : args.length = c.numIn)
    (hreg : mapLookup s.events key = some (Stored.ev e))
    (hlen2 : args2.length = e.argsNums) :
    (e.Call args).ev.callTimes = wrap32 (e.callTimes + 1) ∧
    (e.Call args).executed = [(e.key, args)] ∧
    (e.Call args).ret ≠ some Err.ErrNotFound ∧
    ((s.Send key args2).2 = none ∧
      mapLookup (s.Send key args2).1.events key = none ∧
      ((s.Send key args2).1.Send key args3).2 = some Err.ErrNotFound) := by
  refine ⟨?_, ?_, ?_, ?_, ?_, ?_⟩
  · simp [event.Call, hc, hlen]
  · simp [event.Call, hc, hlen]
  · by_cases hp : c.panics args <;> simp [event.Call, hc, hlen, hp]
  · simp [EventBus.Send, hreg, hlen2]
  · simp [EventBus.Send, hreg, hlen2, honce, EventBus.Remove,
      mapLookup_mapDelete_self]
  · simp [EventBus.Send, hreg, hlen2, honce, EventBus.Remove,
      mapLookup_mapDelete_self]

/-- C1 amended-theorem witness: a once entry with a quiet zero-argument
body, registered on a fresh bus and sent twice. -/
theorem c1_amended_witness :
    (((⟨"g", true, RegValue.func ⟨0, fun _ => false⟩, 0, 0⟩ :
        event Nat).Call []).ev.callTimes = wrap32 (0 + 1) ∧
      ((⟨"g", true, RegValue.func ⟨0, fun _ => false⟩, 0, 0⟩ :
        event Nat).Call []).executed = [("g", [])] ∧
      ((⟨"g", true, RegValue.func ⟨0, fun _ => false⟩, 0, 0⟩ :
        event Nat).Call []).ret ≠ some Err.ErrNotFound ∧
      (((((New Nat).Once "g" (RegValue.func ⟨0, fun _ => false⟩)).1.Send "g"
        []).2 = none) ∧
        mapLookup ((((New Nat).Once "g"
          (RegValue.func ⟨0, fun _ => false⟩)).1.Send "g" []).1).events "g"
          = none ∧
        (((((New Nat).Once "g" (RegValue.func ⟨0, fun _ => false⟩)).1.Send "g"
          []).1.Send "g" []).2 = some Err.ErrNotFound))) :=
  c1_amended_removal_enforces_once
    (⟨"g", true, RegValue.func ⟨0, fun _ => false⟩, 0, 0⟩ : event Nat)
    ⟨0, fun _ => false⟩ []
    ((New Nat).Once "g" (RegValue.func ⟨0, fun _ => false⟩)).1 "g" [] []
    rfl rfl (by decide) rfl rfl

/-- C2: on the synchronous dispatch mode, triggering a registered handler
whose body raises a fault with an arity-matching argument list returns
ErrRuntimePanic to the caller instead of letting the fault escape, and
when the handler was registered through Once its entry has already been
removed, so any subsequent Send of that key, queued or synchronous, fails
with ErrNotFound. -/
theorem c2_sync_panic_reported {Arg : Type} (s : EventBus Arg) (key : String)
    (e : event Arg) (c : Callable Arg) (args args2 : List Arg)
    (h : mapLookup s.events key = some (Stored.ev e))
    (hc : e.call = RegValue.func c)
    (hlen : args.length = e.argsNums)
    (harity : e.argsNums = c.numIn)
    (hp : c.panics args = true) :
    (s.SendSync key args).2 = some Err.ErrRuntimePanic ∧
    (e.once = true →
      mapLookup (s.SendSync key args).1.events key = none ∧
      ((s.SendSync key args).1.Send key args2).2 = some Err.ErrNotFound ∧
      ((s.SendSync key args).1.SendSync key args2).2 = some Err.ErrNotFound) := by
  have hlc : args.length = c.numIn := hlen.trans harity
  refine ⟨?_, fun ho => ⟨?_, ?_, ?_⟩⟩
  · simp [EventBus.SendSync, h, hlen, event.Call, hc, hlc, harity, hp]
  · simp [EventBus.SendSync, h, hlen, ho, EventBus.Remove,
      mapLookup_mapDelete_self]
  · simp [EventBus.SendSync, EventBus.Send, h, hlen, ho, EventBus.Remove,
      mapLookup_mapDelete_self]
  · simp [EventBus.SendSync, h, hlen, ho, EventBus.Remove,
      mapLookup_mapDelete_self]

/-- C2 witness: a zero-argument once handler that always raises a fault,
registered under the key "panic" on a fresh bus. -/
theorem c2_witness :
    ((((New Nat).Once "panic" (RegValue.func ⟨0, fun _ => true⟩)).1.SendSync
      "panic" []).2 = some Err.ErrRuntimePanic) ∧
    ((⟨"panic", true, RegValue.func ⟨0, fun _ => true⟩, 0, 0⟩ :
        event Nat).once = true →
      mapLookup ((((New Nat).Once "panic"
        (RegValue.func ⟨0, fun _ => true⟩)).1.SendSync "panic" []).1).events
        "panic" = none ∧
      (((((New Nat).Once "panic" (RegValue.func ⟨0, fun _ => true⟩)).1.SendSync
        "panic" []).1.Send "panic" []).2 = some Err.ErrNotFound) ∧
      (((((New Nat).Once "panic" (RegValue.func ⟨0, fun _ => true⟩)).1.SendSync
        "panic" []).1.SendSync "panic" []).2 = some Err.ErrNotFound)) :=
  c2_sync_panic_reported
    ((New Nat).Once "panic" (RegValue.func ⟨0, fun _ => true⟩)).1 "panic"
    (⟨"panic", true, RegValue.func ⟨0, fun _ => true⟩, 0, 0⟩ : event Nat)
    ⟨0, fun _ => true⟩ [] [] rfl rfl rfl rfl rfl

end EventBusSpec
